import Mathlib

/-!
Verification development for the vara-auth-backend taste-profile and
recommendation engine.  The definitions below are a shallow embedding of the
JavaScript source: the Mongoose `UserTasteProfile` model (score updates,
monthly decay, top-K reads, the bulk decay sweep), the Express route handlers
for `/taste-interaction` and `/recommendations`, and the VARA-AI recommender
helpers (`deriveHeuristicSpec`, `pickTopWithDiversity`).

Modelling conventions:
- JS numbers that hold scores are modelled as rationals (`ℚ`); score weights
  are halves, and `Math.floor` becomes `Int.floor` on `ℚ`.
- JS `Date` values are modelled by their year/month/day components; the decay
  logic only ever reads `getFullYear()` and `getMonth()` (0-based month).
- Mutation of a Mongoose document is modelled by returning the new document
  state; fallible persistence (`save()`) is modelled by an explicit
  failure oracle where a claim depends on it.
- `Array.prototype.sort` with comparator `(a, b) => b.score - a.score` is a
  stable sort (ECMAScript 2019); a stable sort result is uniquely determined
  by the comparator, so it is modelled by a stable insertion sort.
-/

namespace Vara

/-- Calendar date, the components of a JS `Date` that the taste-profile code
reads: `getFullYear()`, `getMonth()` (0-based), `getDate()`.  The `day`
component is never read by the decay logic. -/
structure CalDate where
  year : Int
  month : Int
  day : Int
deriving DecidableEq

/-- `Math.max` on rationals (no NaN values arise in this model). -/
def jsMax (a b : ℚ) : ℚ := if a ≤ b then b else a

/-- One entry of `UserTasteProfile.genres`. -/
structure GenreEntry where
  genreId : String
  genreName : String
  score : ℚ
deriving DecidableEq

/-- One entry of `UserTasteProfile.subGenres`. -/
structure SubGenreEntry where
  subGenreId : String
  subGenreName : String
  parentGenreId : String
  score : ℚ
deriving DecidableEq

/-- The `UserTasteProfile` Mongoose document. -/
structure TasteProfile where
  userId : String
  genres : List GenreEntry
  subGenres : List SubGenreEntry
  totalInteractions : Nat
  lastDecayDate : CalDate
  lastUpdated : CalDate
deriving DecidableEq

/-- Schema defaults for a freshly constructed profile
(`new UserTasteProfile({ userId })`): empty score arrays,
`totalInteractions = 0`, both timestamps set to now. -/
def newTasteProfile (userId : String) (now : CalDate) : TasteProfile :=
  { userId := userId
    genres := []
    subGenres := []
    totalInteractions := 0
    lastDecayDate := now
    lastUpdated := now }

/-- `this.genres.find(g => g.genreId === genreId)` followed by mutation of the
found element: update the first entry whose `genreId` matches, flooring the
new score at 1 (`Math.max(1, existingGenre.score + points)`). -/
def updateFirstGenre (genreId : String) (points : ℚ) :
    List GenreEntry → List GenreEntry
  | [] => []
  | g :: gs =>
    if g.genreId = genreId then
      { g with score := jsMax 1 (g.score + points) } :: gs
    else
      g :: updateFirstGenre genreId points gs

/-- First-match update for the `subGenres` array, flooring the new score
at 1. -/
def updateFirstSubGenre (subGenreId : String) (points : ℚ) :
    List SubGenreEntry → List SubGenreEntry
  | [] => []
  | sg :: sgs =>
    if sg.subGenreId = subGenreId then
      { sg with score := jsMax 1 (sg.score + points) } :: sgs
    else
      sg :: updateFirstSubGenre subGenreId points sgs

/-- `userTasteProfileSchema.methods.updateGenreScore`: update the first
matching entry (score floored at 1), or push a new entry with score
`Math.max(1, points)`; sets `lastUpdated`. -/
def TasteProfile.updateGenreScore (p : TasteProfile) (genreId genreName : String)
    (points : ℚ) (now : CalDate) : TasteProfile :=
  if p.genres.any (fun g => g.genreId = genreId) then
    { p with genres := updateFirstGenre genreId points p.genres, lastUpdated := now }
  else
    { p with
      genres := p.genres ++ [⟨genreId, genreName, jsMax 1 points⟩]
      lastUpdated := now }

/-- `userTasteProfileSchema.methods.updateSubGenreScore`: same shape as the
genre update, carrying the parent genre id on newly pushed entries. -/
def TasteProfile.updateSubGenreScore (p : TasteProfile)
    (subGenreId subGenreName parentGenreId : String) (points : ℚ)
    (now : CalDate) : TasteProfile :=
  if p.subGenres.any (fun sg => sg.subGenreId = subGenreId) then
    { p with
      subGenres := updateFirstSubGenre subGenreId points p.subGenres
      lastUpdated := now }
  else
    { p with
      subGenres := p.subGenres ++ [⟨subGenreId, subGenreName, parentGenreId, jsMax 1 points⟩]
      lastUpdated := now }

/-- The decay factor; `applyDecay(decayFactor = 0.95)` is called with its
default argument at every call site in the repository. -/
def decayFactor : ℚ := 19 / 20

/-- One score under decay: `Math.max(1, Math.floor(score * decayFactor))`. -/
def decayScore (s : ℚ) : ℚ := jsMax 1 ((⌊s * decayFactor⌋ : ℤ) : ℚ)

/-- `(now.getFullYear() - lastDecay.getFullYear()) * 12 +
(now.getMonth() - lastDecay.getMonth())`: whole calendar months elapsed,
computed from year/month components only. -/
def monthsBetween (lastDecay now : CalDate) : Int :=
  (now.year - lastDecay.year) * 12 + (now.month - lastDecay.month)

/-- `userTasteProfileSchema.methods.applyDecay`: if at least one calendar
month elapsed since `lastDecayDate`, replace every genre and sub-genre score
`s` by `max(1, floor(s * 0.95))` and set `lastDecayDate := now`; otherwise do
nothing. -/
def TasteProfile.applyDecay (p : TasteProfile) (now : CalDate) : TasteProfile :=
  if 1 ≤ monthsBetween p.lastDecayDate now then
    { p with
      genres := p.genres.map (fun g => { g with score := decayScore g.score })
      subGenres := p.subGenres.map (fun sg => { sg with score := decayScore sg.score })
      lastDecayDate := now }
  else p

/-- Stable insertion of `x` into a list sorted descending by `f`: `x` is
placed before the first element whose key is `≤ f x`, so elements already in
the list that tie with `x` stay behind it. -/
def insertScoreDesc (f : α → ℚ) (x : α) : List α → List α
  | [] => [x]
  | y :: ys =>
    if f y ≤ f x then x :: y :: ys else y :: insertScoreDesc f x ys

/-- Stable descending sort by `f`.  `Array.prototype.sort` with comparator
`(a, b) => b.score - a.score` is stable (ECMAScript 2019), and a stable sort
is uniquely determined by the comparator, so this insertion sort computes the
same list. -/
def sortScoreDesc (f : α → ℚ) : List α → List α
  | [] => []
  | x :: xs => insertScoreDesc f x (sortScoreDesc f xs)

/-- `userTasteProfileSchema.methods.getTopGenres`: `this.genres.sort(...)`
sorts the stored array in place, then `.slice(0, limit)` is returned.  The
first component is the document after the call (its `genres` array now
sorted), the second the returned list. -/
def TasteProfile.getTopGenres (p : TasteProfile) (limit : Nat) :
    TasteProfile × List GenreEntry :=
  let sorted := sortScoreDesc (fun g => g.score) p.genres
  ({ p with genres := sorted }, sorted.take limit)

/-- `userTasteProfileSchema.methods.getTopSubGenres`: in-place sort of the
stored `subGenres` array followed by `.slice(0, limit)`. -/
def TasteProfile.getTopSubGenres (p : TasteProfile) (limit : Nat) :
    TasteProfile × List SubGenreEntry :=
  let sorted := sortScoreDesc (fun sg => sg.score) p.subGenres
  ({ p with subGenres := sorted }, sorted.take limit)

/-- Outcome of `UserTasteProfile.runMonthlyDecay`: either
`{ success: true, updatedCount }` or `{ success: false, error }`. -/
inductive SweepResult where
  | ok (updatedCount : Nat)
  | failed (error : String)
deriving DecidableEq

/-- Loop body of `runMonthlyDecay`.  The whole `for` loop sits inside a single
`try`: decay each profile, `await profile.save()`, count it.  A throwing
`save()` transfers control to the `catch`, which returns
`{ success: false, error }` — the profiles already saved stay saved, the rest
of the list is never processed.  `saveFails` is the oracle for which document
states the persistence layer rejects. -/
def sweepGo (saveFails : TasteProfile → Bool) (now : CalDate) :
    List TasteProfile → Nat → List TasteProfile → SweepResult × List TasteProfile
  | [], updatedCount, saved => (.ok updatedCount, saved)
  | p :: rest, updatedCount, saved =>
    let p' := p.applyDecay now
    if saveFails p' then (.failed "save failed", saved)
    else sweepGo saveFails now rest (updatedCount + 1) (saved ++ [p'])

/-- `UserTasteProfile.runMonthlyDecay`: iterate all profiles, apply decay,
save each; returns the sweep result together with the list of profile states
that were successfully persisted, in order. -/
def runMonthlyDecay (profiles : List TasteProfile)
    (saveFails : TasteProfile → Bool) (now : CalDate) :
    SweepResult × List TasteProfile :=
  sweepGo saveFails now profiles 0 []

/-- Genre tag as sent in the `/taste-interaction` request body
(`genre._id`, `genre.name`). -/
structure GenreTag where
  id : String
  name : String
deriving DecidableEq

/-- Sub-genre tag from the request body; `genre?._id` may be absent
(`subGenre.genre?._id || 'unknown'`). -/
structure SubGenreTag where
  id : String
  name : String
  parentGenreId : Option String
deriving DecidableEq

/-- Body of a `POST /taste-interaction` request.  `songId` is `none` when the
field is missing; `genres` / `subGenres` are `none` when missing or not an
array. -/
structure InteractionRequest where
  songId : Option String
  interactionType : String
  genres : Option (List GenreTag)
  subGenres : Option (List SubGenreTag)
deriving DecidableEq

/-- Response of the `/taste-interaction` handler (ignoring logging): a 400
client error or the success payload carrying `totalInteractions`. -/
inductive InteractionResponse where
  | badRequest (message : String)
  | ok (totalInteractions : Nat)
deriving DecidableEq

/-- JS falsiness of an optional string (`!songId`): missing or empty. -/
def falsyStr : Option String → Bool
  | none => true
  | some s => s = ""

/-- The property names of `Object.prototype` in ECMAScript (Annex B
included, as implemented by Node).  A bracket read `obj[k]` on a plain object
literal falls back to these inherited members when `k` is not an own
property, and every one of them has a truthy value (a function, or for
`__proto__` the prototype object itself). -/
def objectProtoProps : List String :=
  ["constructor", "hasOwnProperty", "isPrototypeOf", "propertyIsEnumerable",
   "toLocaleString", "toString", "valueOf", "__proto__", "__defineGetter__",
   "__defineSetter__", "__lookupGetter__", "__lookupSetter__"]

/-- Result of the JS property read `scoreWeights[interactionType]` on the
object literal of the `/taste-interaction` handler: an own entry of the
weight table (with its `genre`/`subgenre` point values), a truthy member
inherited from `Object.prototype` (whose `.genre` and `.subgenre` are
`undefined`), or `undefined` (falsy). -/
inductive WeightsVal where
  | own (genre subgenre : ℚ)
  | inherited
  | absent
deriving DecidableEq

/-- The lookup `scoreWeights[interactionType]`: the seven own entries of the
table, then the prototype chain, then `undefined`. -/
def scoreWeights : String → WeightsVal
  | "play" => .own (1/2) 1
  | "like" => .own (5/2) 5
  | "favorite" => .own (5/2) 5
  | "skip" => .own (-1) (-2)
  | "repeat" => .own (3/2) 3
  | "download" => .own 2 4
  | "unfavorite" => .own (-5/2) (-5)
  | k => if k ∈ objectProtoProps then .inherited else .absent

/-- `subGenre.genre?._id || 'unknown'`: falsy (missing or empty) parent ids
collapse to the literal `"unknown"`. -/
def parentOrUnknown : Option String → String
  | none => "unknown"
  | some s => if s = "" then "unknown" else s

/-- The `POST /taste-interaction` handler, after authentication: validate
`songId`/`interactionType`, look up the weights (the 400 fires only when the
lookup is falsy, i.e. `undefined`), find or create the profile, apply decay,
fold the genre and sub-genre tag updates, bump `totalInteractions`, save.
The first component is the stored profile after the call (unchanged on a
400).  When the kind names an inherited `Object.prototype` member, the
lookup is truthy, so the guard is skipped and the handler proceeds with
`weights.genre` and `weights.subgenre` both `undefined`: decay, the counter
bump, persistence and the 200 response are modelled exactly; the per-tag
writes of that branch would store `Math.max(1, score + undefined) = NaN`,
which has no rational counterpart, so the claims about this branch are
stated for requests that carry no tags (where the branch performs no per-tag
write at all). -/
def processTasteInteraction (store : Option TasteProfile) (userId : String)
    (req : InteractionRequest) (now : CalDate) :
    Option TasteProfile × InteractionResponse :=
  if falsyStr req.songId || req.interactionType = "" then
    (store, .badRequest "songId and interactionType are required")
  else
    match scoreWeights req.interactionType with
    | .absent => (store, .badRequest "Invalid interaction type")
    | .own genreW subgenreW =>
      let p0 := store.getD (newTasteProfile userId now)
      let p1 := p0.applyDecay now
      let p2 := (req.genres.getD []).foldl
        (fun p g => p.updateGenreScore g.id g.name genreW now) p1
      let p3 := (req.subGenres.getD []).foldl
        (fun p sg =>
          p.updateSubGenreScore sg.id sg.name (parentOrUnknown sg.parentGenreId) subgenreW now)
        p2
      let p4 := { p3 with totalInteractions := p3.totalInteractions + 1 }
      (some p4, .ok p4.totalInteractions)
    | .inherited =>
      let p0 := store.getD (newTasteProfile userId now)
      let p1 := p0.applyDecay now
      let p4 := { p1 with totalInteractions := p1.totalInteractions + 1 }
      (some p4, .ok p4.totalInteractions)

/-- Response of the `GET /recommendations` handler (ignoring logging):
`{ songs: [] }` (status 200), the structured
`{ hasRecommendations: false, interactionCount, minRequired }` payload, or the
`{ hasRecommendations: true, ... }` payload. -/
inductive RecResponse where
  | emptySongs
  | insufficient (interactionCount minRequired : Nat)
  | recs (interactionCount : Nat) (topSubGenres : List SubGenreEntry)
      (topGenres : List GenreEntry)
deriving DecidableEq

/-- The `GET /recommendations` handler, after authentication.  The stored
profile document has no `genreScores`, `subGenreScores` or `interactions`
fields, so `hasAnyTaste` reduces to: a profile exists and its `genres` or
`subGenres` array is non-empty.  Without taste data the handler returns
`{ songs: [] }` with status 200; with taste data but fewer than 5
interactions it returns the structured insufficient-history payload;
otherwise it applies decay (and saves), then reads the top 3 sub-genres and
top 2 genres. -/
def getRecommendations (store : Option TasteProfile) (now : CalDate) :
    RecResponse :=
  match store with
  | none => .emptySongs
  | some p =>
    if p.genres.length = 0 ∧ p.subGenres.length = 0 then .emptySongs
    else if p.totalInteractions < 5 then
      .insufficient p.totalInteractions 5
    else
      let p1 := p.applyDecay now
      let (p2, topSubs) := p1.getTopSubGenres 3
      let (_, topGs) := p2.getTopGenres 2
      .recs p1.totalInteractions topSubs topGs

/-- A song as seen by `pickTopWithDiversity`: only its sub-genre id list
matters for grouping (`(s.subGenres || []).map(x => String(x._id || x))`). -/
structure Song where
  id : String
  subGenres : List String
deriving DecidableEq

/-- The diversity group of a song: its first sub-genre id, or the literal
string key `'none'` when it has no sub-genre tag. -/
def groupKey (s : Song) : String :=
  match s.subGenres with
  | [] => "none"
  | x :: _ => x

/-- Loop of `pickTopWithDiversity`: walk the sorted pool, break once `topK`
are picked, skip a song whose group already has `maxPerSub` picks, otherwise
bump the group counter and push the song. -/
def pickGo (maxPerSub topK : Nat) :
    List Song → List Song → (String → Nat) → List Song
  | [], picked, _ => picked
  | s :: rest, picked, perSubCount =>
    if topK ≤ picked.length then picked
    else if maxPerSub ≤ perSubCount (groupKey s) then
      pickGo maxPerSub topK rest picked perSubCount
    else
      pickGo maxPerSub topK rest (picked ++ [s])
        (fun k => if k = groupKey s then perSubCount (groupKey s) + 1 else perSubCount k)

/-- `pickTopWithDiversity(sorted, maxPerSub = 4, topK = 10)`. -/
def pickTopWithDiversity (sorted : List Song) (maxPerSub topK : Nat) :
    List Song :=
  pickGo maxPerSub topK sorted [] (fun _ => 0)

/-- Number of songs of diversity group `k` in a list. -/
def countGroup (k : String) (l : List Song) : Nat :=
  (l.filter (fun s => groupKey s = k)).length

/-- ASCII lower-casing of one character; the texts and taxonomy names the
heuristic handles are ASCII, so this is `String.prototype.toLowerCase`. -/
def lowChar (c : Char) : Char :=
  if 'A' ≤ c ∧ c ≤ 'Z' then Char.ofNat (c.toNat + 32) else c

/-- ASCII lower-casing of a string. -/
def lowStr (s : String) : String := ⟨s.data.map lowChar⟩

/-- Whether the first list is an initial segment of the second. -/
def leadEq : List Char → List Char → Bool
  | [], _ => true
  | _ :: _, [] => false
  | a :: as, b :: bs => a == b && leadEq as bs

/-- Whether `needle` occurs contiguously inside `hay`
(`String.prototype.includes`). -/
def hasSub (needle : List Char) : List Char → Bool
  | [] => leadEq needle []
  | c :: cs => leadEq needle (c :: cs) || hasSub needle cs

/-- `hay.includes(needle)` on strings. -/
def strHasSub (hay needle : String) : Bool := hasSub needle.data hay.data

/-- A case-insensitive alternation regex test
(`/a|b|c/i.test(text)`): some needle occurs in the lower-cased text. -/
def ciTest (text : String) (needles : List String) : Bool :=
  needles.any (fun n => strHasSub (lowStr text) (lowStr n))

/-- A taxonomy document carrying `_id` and `name`. -/
structure NamedDoc where
  id : String
  name : String
deriving DecidableEq

/-- A sub-genre taxonomy document; `parentGenreId` is `sg.genre._id` when
present. -/
structure SubGenreDoc where
  id : String
  name : String
  parentGenreId : Option String
deriving DecidableEq

/-- The in-process taxonomy cache contents (genres, sub-genres, moods,
instruments) that `deriveHeuristicSpec` reads. -/
structure Taxonomy where
  genres : List NamedDoc
  subGenres : List SubGenreDoc
  moods : List NamedDoc
  instruments : List NamedDoc
deriving DecidableEq

/-- `taxonomy.parentBySubId.get(sid)`: parent genre id of a sub-genre. -/
def Taxonomy.parentOf (tax : Taxonomy) (sid : String) : Option String :=
  (tax.subGenres.find? (fun sg => sg.id = sid)).bind (fun sg => sg.parentGenreId)

/-- The `tempo` object of a `QuerySpec`. -/
structure TempoSpec where
  targetBpm : Int
  min : Int
  max : Int
  expandSteps : List Int
deriving DecidableEq

/-- The `key` object of a `QuerySpec`. -/
structure KeySpec where
  mode : String
  preferred : List String
deriving DecidableEq

/-- The structured query specification produced by the understand stage. -/
structure QuerySpec where
  intent : String
  genre : Option String
  subGenres : List String
  moods : List String
  instruments : List String
  tempo : Option TempoSpec
  key : Option KeySpec
  vocals : Option String
  priority : List String
deriving DecidableEq

/-- `deriveHeuristicSpec(text, vocalsFlag)`: the deterministic heuristic
fallback of the understand stage.  The `vocals` value is assigned in source
order — caller flag `on`, caller flag `off`, then the
`/no vocals|instrumental|without vocals/i` test setting `off`, then the
`/with vocals|singer|vocal/i` test setting `on` (each later assignment
overwriting the earlier ones).  Mood, instrument and sub-genre hits are
case-insensitive substring matches of taxonomy display names against the
text; the genre is the first name hit when no sub-genre matched, otherwise
the parent genre of the first sub-genre hit.  The tempo band comes from three
keyword alternations tried in order, the key mode from literal
`minor`/`major` mentions. -/
def deriveHeuristicSpec (tax : Taxonomy) (text : String)
    (vocalsFlag : Option String) : QuerySpec :=
  let t := lowStr text
  let v1 : Option String := if vocalsFlag = some "on" then some "on" else none
  let v2 : Option String := if vocalsFlag = some "off" then some "off" else v1
  let v3 : Option String :=
    if ciTest text ["no vocals", "instrumental", "without vocals"] then some "off" else v2
  let v4 : Option String :=
    if ciTest text ["with vocals", "singer", "vocal"] then some "on" else v3
  let moodHits := tax.moods.filter
    (fun m => (lowStr m.name != "") && strHasSub t (lowStr m.name))
  let instHits := tax.instruments.filter
    (fun i => (lowStr i.name != "") && strHasSub t (lowStr i.name))
  let subHits := tax.subGenres.filter
    (fun sg => (lowStr sg.name != "") && strHasSub t (lowStr sg.name))
  let genreHit : Option NamedDoc :=
    match subHits with
    | [] => tax.genres.find?
        (fun g => (lowStr g.name != "") && strHasSub t (lowStr g.name))
    | sg :: _ =>
      (tax.parentOf sg.id).bind (fun pid => tax.genres.find? (fun g => g.id = pid))
  let tempo : Option TempoSpec :=
    if ciTest text ["fast", "energetic", "gym", "sports", "action", "dance", "high energy"] then
      some { targetBpm := 135, min := 120, max := 160, expandSteps := [5, 10, 20] }
    else if ciTest text ["calm", "chill", "study", "focus", "soft", "slow", "ambient", "lofi"] then
      some { targetBpm := 75, min := 60, max := 90, expandSteps := [5, 10, 20] }
    else if ciTest text
        ["corporate", "tech", "product", "vlog", "travel", "tutorial", "explainer", "learning"] then
      some { targetBpm := 105, min := 90, max := 120, expandSteps := [5, 10, 20] }
    else none
  let key : Option KeySpec :=
    if ciTest text ["minor"] then some { mode := "minor", preferred := [] }
    else if ciTest text ["major"] then some { mode := "major", preferred := [] }
    else none
  { intent := text
    genre := genreHit.map (fun g => g.name)
    subGenres := (subHits.take 3).map (fun s => s.name)
    moods := (moodHits.take 3).map (fun m => m.name)
    instruments := (instHits.take 3).map (fun i => i.name)
    tempo := tempo
    key := key
    vocals := v4
    priority := ["subGenre", "mood", "genre", "tempo", "instruments", "key"] }

/-- The score invariant of the data model: every genre and sub-genre entry
present in the profile has score at least 1. -/
def TasteProfile.scoresOK (p : TasteProfile) : Prop :=
  (∀ g ∈ p.genres, 1 ≤ g.score) ∧ (∀ sg ∈ p.subGenres, 1 ≤ sg.score)

/-- Number of songs in a list whose diversity group differs from `k`. -/
def countNonGroup (k : String) (l : List Song) : Nat :=
  (l.filter (fun s => groupKey s ≠ k)).length

/-! Concrete inputs used by the witness and counterexample theorems. -/

/-- A sample date: June 15, 2025 (JS month index 5). -/
def dEx : CalDate := ⟨2025, 5, 15⟩

/-- A genre entry inserted first, with the lower score. -/
def eA : GenreEntry := ⟨"A", "Alpha", 3⟩

/-- A genre entry inserted second, with the higher score. -/
def eB : GenreEntry := ⟨"B", "Beta", 5⟩

/-- A sample profile whose `genres` array is in insertion order `[eA, eB]`. -/
def pEx : TasteProfile :=
  { userId := "u"
    genres := [eA, eB]
    subGenres := [⟨"s1", "SubOne", "A", 2⟩]
    totalInteractions := 6
    lastDecayDate := dEx
    lastUpdated := dEx }

/-- A profile with taste entries but only 3 recorded interactions. -/
def pLow : TasteProfile :=
  { userId := "v"
    genres := [eA]
    subGenres := []
    totalInteractions := 3
    lastDecayDate := dEx
    lastUpdated := dEx }

/-- A profile holding a single genre score of 100, last decayed in
January 2025. -/
def pCent : TasteProfile :=
  { userId := "w"
    genres := [⟨"g1", "Rock", 100⟩]
    subGenres := []
    totalInteractions := 9
    lastDecayDate := ⟨2025, 0, 10⟩
    lastUpdated := ⟨2025, 0, 10⟩ }

/-- An interaction request with an unrecognized interaction type. -/
def reqBad : InteractionRequest := ⟨some "song1", "share", none, none⟩

/-- A tag-less interaction request whose kind names an inherited
`Object.prototype` member instead of a table entry. -/
def reqProto : InteractionRequest := ⟨some "song1", "toString", none, none⟩

/-- A second profile for the sweep counterexample. -/
def qTwo : TasteProfile :=
  { userId := "u2"
    genres := [⟨"g1", "Rock", 40⟩]
    subGenres := []
    totalInteractions := 3
    lastDecayDate := ⟨2025, 4, 1⟩
    lastUpdated := ⟨2025, 4, 1⟩ }

/-- A persistence oracle that rejects exactly the documents of user `w`
(the user of `pCent`). -/
def failsOnW (p : TasteProfile) : Bool := p.userId = "w"

/-- The free-text brief of the query-understanding test. -/
def cText : String := "calm ambient music for meditation, no vocals"

/-- A taxonomy cache with no entries; the vocals and tempo fields of the
heuristic spec do not depend on the cache contents. -/
def emptyTax : Taxonomy := ⟨[], [], [], []⟩

/-- A sorted candidate pool with 12 alternate-group songs (three groups of
four) ahead of 10 songs that all share the sub-genre `S`. -/
def cexPool : List Song :=
  [⟨"o1", ["G1"]⟩, ⟨"o2", ["G1"]⟩, ⟨"o3", ["G1"]⟩, ⟨"o4", ["G1"]⟩,
   ⟨"o5", ["G2"]⟩, ⟨"o6", ["G2"]⟩, ⟨"o7", ["G2"]⟩, ⟨"o8", ["G2"]⟩,
   ⟨"o9", ["G3"]⟩, ⟨"o10", ["G3"]⟩, ⟨"o11", ["G3"]⟩, ⟨"o12", ["G3"]⟩,
   ⟨"s1", ["S"]⟩, ⟨"s2", ["S"]⟩, ⟨"s3", ["S"]⟩, ⟨"s4", ["S"]⟩, ⟨"s5", ["S"]⟩,
   ⟨"s6", ["S"]⟩, ⟨"s7", ["S"]⟩, ⟨"s8", ["S"]⟩, ⟨"s9", ["S"]⟩, ⟨"s10", ["S"]⟩]

/-- A sorted candidate pool with 10 songs sharing sub-genre `S` followed by
6 alternate-group songs (two groups of three). -/
def okPool : List Song :=
  [⟨"s1", ["S"]⟩, ⟨"s2", ["S"]⟩, ⟨"s3", ["S"]⟩, ⟨"s4", ["S"]⟩, ⟨"s5", ["S"]⟩,
   ⟨"s6", ["S"]⟩, ⟨"s7", ["S"]⟩, ⟨"s8", ["S"]⟩, ⟨"s9", ["S"]⟩, ⟨"s10", ["S"]⟩,
   ⟨"o1", ["G1"]⟩, ⟨"o2", ["G1"]⟩, ⟨"o3", ["G1"]⟩,
   ⟨"o4", ["G2"]⟩, ⟨"o5", ["G2"]⟩, ⟨"o6", ["G2"]⟩]

/-! ### Helper lemmas -/

theorem one_le_jsMax_one (x : ℚ) : 1 ≤ jsMax 1 x := by
  unfold jsMax
  split
  · assumption
  · exact le_refl 1

theorem one_le_decayScore (s : ℚ) : 1 ≤ decayScore s := one_le_jsMax_one _

theorem updateFirstGenre_scores (gid : String) (pts : ℚ) :
    ∀ l : List GenreEntry, (∀ g ∈ l, 1 ≤ g.score) →
      ∀ g ∈ updateFirstGenre gid pts l, 1 ≤ g.score
  | [], _ => by simp [updateFirstGenre]
  | e :: l, h => by
    unfold updateFirstGenre
    split
    · intro g hg
      rcases List.mem_cons.mp hg with rfl | hm
      · exact one_le_jsMax_one _
      · exact h g (List.mem_cons_of_mem _ hm)
    · intro g hg
      rcases List.mem_cons.mp hg with rfl | hm
      · exact h g (List.mem_cons_self _ _)
      · exact updateFirstGenre_scores gid pts l
          (fun x hx => h x (List.mem_cons_of_mem _ hx)) g hm

theorem updateFirstSubGenre_scores (sid : String) (pts : ℚ) :
    ∀ l : List SubGenreEntry, (∀ sg ∈ l, 1 ≤ sg.score) →
      ∀ sg ∈ updateFirstSubGenre sid pts l, 1 ≤ sg.score
  | [], _ => by simp [updateFirstSubGenre]
  | e :: l, h => by
    unfold updateFirstSubGenre
    split
    · intro sg hg
      rcases List.mem_cons.mp hg with rfl | hm
      · exact one_le_jsMax_one _
      · exact h sg (List.mem_cons_of_mem _ hm)
    · intro sg hg
      rcases List.mem_cons.mp hg with rfl | hm
      · exact h sg (List.mem_cons_self _ _)
      · exact updateFirstSubGenre_scores sid pts l
          (fun x hx => h x (List.mem_cons_of_mem _ hx)) sg hm

theorem updateGenreScore_scoresOK (p : TasteProfile) (gid gname : String)
    (pts : ℚ) (now : CalDate) (h : p.scoresOK) :
    (p.updateGenreScore gid gname pts now).scoresOK := by
  obtain ⟨hg, hs⟩ := h
  unfold TasteProfile.updateGenreScore
  split
  · exact ⟨updateFirstGenre_scores _ _ _ hg, hs⟩
  · refine ⟨?_, hs⟩
    intro g hgm
    rcases List.mem_append.mp hgm with hm | hm
    · exact hg g hm
    · have := List.mem_singleton.mp hm
      subst this
      exact one_le_jsMax_one _

theorem updateSubGenreScore_scoresOK (p : TasteProfile) (sid sname pid : String)
    (pts : ℚ) (now : CalDate) (h : p.scoresOK) :
    (p.updateSubGenreScore sid sname pid pts now).scoresOK := by
  obtain ⟨hg, hs⟩ := h
  unfold TasteProfile.updateSubGenreScore
  split
  · exact ⟨hg, updateFirstSubGenre_scores _ _ _ hs⟩
  · refine ⟨hg, ?_⟩
    intro sg hgm
    rcases List.mem_append.mp hgm with hm | hm
    · exact hs sg hm
    · have := List.mem_singleton.mp hm
      subst this
      exact one_le_jsMax_one _

theorem applyDecay_scoresOK (p : TasteProfile) (now : CalDate) (h : p.scoresOK) :
    (p.applyDecay now).scoresOK := by
  unfold TasteProfile.applyDecay
  split
  · constructor
    · intro g hg
      obtain ⟨g0, _, rfl⟩ := List.mem_map.mp hg
      exact one_le_decayScore _
    · intro sg hg
      obtain ⟨sg0, _, rfl⟩ := List.mem_map.mp hg
      exact one_le_decayScore _
  · exact h

theorem foldl_scoresOK {β : Type} (step : TasteProfile → β → TasteProfile)
    (hstep : ∀ (q : TasteProfile) (b : β), q.scoresOK → (step q b).scoresOK) :
    ∀ (l : List β) (q : TasteProfile), q.scoresOK → (l.foldl step q).scoresOK
  | [], _, h => h
  | b :: l, q, h => foldl_scoresOK step hstep l (step q b) (hstep q b h)

theorem newTasteProfile_scoresOK (uid : String) (now : CalDate) :
    (newTasteProfile uid now).scoresOK :=
  ⟨by simp [newTasteProfile], by simp [newTasteProfile]⟩

theorem processTasteInteraction_scoresOK (store : Option TasteProfile)
    (uid : String) (req : InteractionRequest) (now : CalDate)
    (h : ∀ q, store = some q → q.scoresOK) :
    ∀ p', (processTasteInteraction store uid req now).1 = some p' → p'.scoresOK := by
  intro p' hp'
  unfold processTasteInteraction at hp'
  by_cases h1 : (falsyStr req.songId || decide (req.interactionType = "")) = true
  · rw [if_pos h1] at hp'
    exact h p' hp'
  · rw [if_neg h1] at hp'
    cases hw : scoreWeights req.interactionType with
    | absent =>
      rw [hw] at hp'
      exact h p' hp'
    | inherited =>
      rw [hw] at hp'
      simp only [Option.some.injEq] at hp'
      subst hp'
      have h0 : (store.getD (newTasteProfile uid now)).scoresOK := by
        cases store with
        | none => exact newTasteProfile_scoresOK uid now
        | some q => exact h q rfl
      exact applyDecay_scoresOK _ now h0
    | own wg ws =>
      rw [hw] at hp'
      simp only [Option.some.injEq] at hp'
      subst hp'
      have h0 : (store.getD (newTasteProfile uid now)).scoresOK := by
        cases store with
        | none => exact newTasteProfile_scoresOK uid now
        | some q => exact h q rfl
      have h1' := applyDecay_scoresOK _ now h0
      have h2 := foldl_scoresOK
        (fun p g => p.updateGenreScore g.id g.name wg now)
        (fun q g hq => updateGenreScore_scoresOK q g.id g.name wg now hq)
        (req.genres.getD []) _ h1'
      have h3 := foldl_scoresOK
        (fun p sg => p.updateSubGenreScore sg.id sg.name (parentOrUnknown sg.parentGenreId) ws now)
        (fun q sg hq => updateSubGenreScore_scoresOK q sg.id sg.name _ ws now hq)
        (req.subGenres.getD []) _ h2
      exact h3

theorem scoreWeights_absent (t : String)
    (h1 : t ∉ (["play", "like", "favorite", "skip", "repeat", "download",
      "unfavorite"] : List String))
    (h2 : t ∉ objectProtoProps) :
    scoreWeights t = WeightsVal.absent := by
  unfold scoreWeights
  split <;> simp_all

theorem scoreWeights_of_proto (t : String) (h : t ∈ objectProtoProps) :
    scoreWeights t = WeightsVal.inherited ∧ ¬ t = "" := by
  fin_cases h <;> exact ⟨by decide, by decide⟩

theorem heuristicSpec_vocals (tax : Taxonomy) (text : String) (vf : Option String) :
    (deriveHeuristicSpec tax text vf).vocals =
      (if ciTest text ["with vocals", "singer", "vocal"] then some "on"
       else if ciTest text ["no vocals", "instrumental", "without vocals"] then some "off"
       else if vf = some "off" then some "off"
       else if vf = some "on" then some "on"
       else none) := rfl

theorem heuristicSpec_tempo (tax : Taxonomy) (text : String) (vf : Option String) :
    (deriveHeuristicSpec tax text vf).tempo =
      (if ciTest text ["fast", "energetic", "gym", "sports", "action", "dance", "high energy"] then
        some { targetBpm := 135, min := 120, max := 160, expandSteps := [5, 10, 20] }
      else if ciTest text ["calm", "chill", "study", "focus", "soft", "slow", "ambient", "lofi"] then
        some { targetBpm := 75, min := 60, max := 90, expandSteps := [5, 10, 20] }
      else if ciTest text
          ["corporate", "tech", "product", "vlog", "travel", "tutorial", "explainer", "learning"] then
        some { targetBpm := 105, min := 90, max := 120, expandSteps := [5, 10, 20] }
      else none) := rfl

theorem sweepGo_success (fails : TasteProfile → Bool) (now : CalDate) :
    ∀ (rest : List TasteProfile) (cnt : Nat) (saved : List TasteProfile),
      (∀ p ∈ rest, fails (p.applyDecay now) = false) →
      sweepGo fails now rest cnt saved
        = (.ok (cnt + rest.length), saved ++ rest.map (fun p => p.applyDecay now))
  | [], cnt, saved, _ => by simp [sweepGo]
  | p :: rest, cnt, saved, h => by
    have hp : fails (p.applyDecay now) = false := h p (List.mem_cons_self p rest)
    have ih := sweepGo_success fails now rest (cnt + 1) (saved ++ [p.applyDecay now])
      (fun q hq => h q (List.mem_cons_of_mem p hq))
    simp only [sweepGo, hp, Bool.false_eq_true, if_false, ih, List.map_cons,
      List.length_cons, List.append_assoc, List.singleton_append, Prod.mk.injEq]
    refine ⟨?_, trivial⟩
    first
    | omega
    | (congr 1; omega)

theorem sweepGo_abort (fails : TasteProfile → Bool) (now : CalDate)
    (q : TasteProfile) (qs : List TasteProfile)
    (hq : fails (q.applyDecay now) = true) :
    ∀ (ps : List TasteProfile) (cnt : Nat) (saved : List TasteProfile),
      (∀ p ∈ ps, fails (p.applyDecay now) = false) →
      sweepGo fails now (ps ++ q :: qs) cnt saved
        = (.failed "save failed", saved ++ ps.map (fun p => p.applyDecay now))
  | [], cnt, saved, _ => by simp [sweepGo, hq]
  | p :: ps, cnt, saved, h => by
    have hp : fails (p.applyDecay now) = false := h p (List.mem_cons_self p ps)
    have ih := sweepGo_abort fails now q qs hq ps (cnt + 1) (saved ++ [p.applyDecay now])
      (fun r hr => h r (List.mem_cons_of_mem p hr))
    rw [List.cons_append]
    simp only [sweepGo, hp, Bool.false_eq_true, if_false]
    rw [ih]
    simp [List.append_assoc]

theorem insertScoreDesc_perm {α : Type} (f : α → ℚ) (x : α) :
    ∀ l : List α, (insertScoreDesc f x l).Perm (x :: l)
  | [] => List.Perm.refl _
  | y :: ys => by
    unfold insertScoreDesc
    split
    · exact List.Perm.refl _
    · exact ((insertScoreDesc_perm f x ys).cons y).trans (List.Perm.swap x y ys)

theorem sortScoreDesc_perm {α : Type} (f : α → ℚ) :
    ∀ l : List α, (sortScoreDesc f l).Perm l
  | [] => List.Perm.refl _
  | x :: xs =>
    (insertScoreDesc_perm f x (sortScoreDesc f xs)).trans
      ((sortScoreDesc_perm f xs).cons x)

theorem insertScoreDesc_pairwise {α : Type} (f : α → ℚ) (x : α) :
    ∀ {l : List α}, l.Pairwise (fun a b => f b ≤ f a) →
      (insertScoreDesc f x l).Pairwise (fun a b => f b ≤ f a)
  | [], _ => by simp [insertScoreDesc]
  | y :: ys, h => by
    rcases List.pairwise_cons.mp h with ⟨hy, hys⟩
    unfold insertScoreDesc
    split
    case isTrue hle =>
      refine List.pairwise_cons.mpr ⟨?_, h⟩
      intro z hz
      rcases List.mem_cons.mp hz with rfl | hm
      · exact hle
      · exact le_trans (hy z hm) hle
    case isFalse hlt =>
      refine List.pairwise_cons.mpr ⟨?_, insertScoreDesc_pairwise f x hys⟩
      intro z hz
      rcases List.mem_cons.mp ((insertScoreDesc_perm f x ys).mem_iff.mp hz) with rfl | hm
      · exact le_of_not_le hlt
      · exact hy z hm

theorem sortScoreDesc_pairwise {α : Type} (f : α → ℚ) :
    ∀ l : List α, (sortScoreDesc f l).Pairwise (fun a b => f b ≤ f a)
  | [] => List.Pairwise.nil
  | x :: xs => insertScoreDesc_pairwise f x (sortScoreDesc_pairwise f xs)

theorem filter_insertScoreDesc_ne {α : Type} (f : α → ℚ) (s : ℚ) (x : α)
    (hx : ¬ f x = s) :
    ∀ l : List α, (insertScoreDesc f x l).filter (fun e => f e = s)
      = l.filter (fun e => f e = s)
  | [] => by simp [insertScoreDesc, hx]
  | y :: ys => by
    unfold insertScoreDesc
    split
    · simp [List.filter_cons, hx]
    · simp [List.filter_cons, filter_insertScoreDesc_ne f s x hx ys]

theorem filter_insertScoreDesc_eq {α : Type} (f : α → ℚ) (s : ℚ) (x : α)
    (hx : f x = s) :
    ∀ l : List α, l.Pairwise (fun a b => f b ≤ f a) →
      (insertScoreDesc f x l).filter (fun e => f e = s)
        = x :: l.filter (fun e => f e = s)
  | [], _ => by simp [insertScoreDesc, hx]
  | y :: ys, h => by
    rcases List.pairwise_cons.mp h with ⟨hy, hys⟩
    unfold insertScoreDesc
    split
    case isTrue hle => simp [List.filter_cons, hx]
    case isFalse hlt =>
      have hxy : f x < f y := not_le.mp hlt
      have hyne : ¬ f y = s := by
        rw [← hx]
        exact ne_of_gt hxy
      simp [List.filter_cons, hyne, filter_insertScoreDesc_eq f s x hx ys hys]

theorem sortScoreDesc_filter {α : Type} (f : α → ℚ) (s : ℚ) :
    ∀ l : List α, (sortScoreDesc f l).filter (fun e => f e = s)
      = l.filter (fun e => f e = s)
  | [] => rfl
  | x :: xs => by
    unfold sortScoreDesc
    by_cases hx : f x = s
    · rw [filter_insertScoreDesc_eq f s x hx _ (sortScoreDesc_pairwise f xs),
        sortScoreDesc_filter f s xs]
      simp [List.filter_cons, hx]
    · rw [filter_insertScoreDesc_ne f s x hx, sortScoreDesc_filter f s xs]
      simp [List.filter_cons, hx]

theorem take_filter_isPre {α : Type} (p : α → Bool) (n : Nat) (l : List α) :
    (l.take n).filter p <+: l.filter p := by
  have h := List.take_prefix n l
  exact h.filter p

theorem countGroup_cons (k : String) (s : Song) (l : List Song) :
    countGroup k (s :: l)
      = (if groupKey s = k then 1 else 0) + countGroup k l := by
  by_cases h : groupKey s = k <;> simp [countGroup, List.filter_cons, h, Nat.add_comm]

theorem countGroup_append_one (k : String) (l : List Song) (s : Song) :
    countGroup k (l ++ [s])
      = countGroup k l + (if groupKey s = k then 1 else 0) := by
  by_cases h : groupKey s = k <;> simp [countGroup, List.filter_append, List.filter_cons, h]

theorem countNonGroup_cons (k : String) (s : Song) (l : List Song) :
    countNonGroup k (s :: l)
      = (if groupKey s = k then 0 else 1) + countNonGroup k l := by
  by_cases h : groupKey s = k <;> simp [countNonGroup, List.filter_cons, h, Nat.add_comm]

theorem pickGo_count_le (m K : Nat) (k : String) :
    ∀ (rest picked : List Song) (cnt : String → Nat),
      cnt k = countGroup k picked →
      countGroup k (pickGo m K rest picked cnt) ≤ max m (countGroup k picked)
  | [], picked, cnt, _ => by
    simp only [pickGo]
    exact le_max_right _ _
  | s :: rest, picked, cnt, h => by
    unfold pickGo
    split
    · exact le_max_right _ _
    · split
      case isTrue hfull =>
        exact pickGo_count_le m K k rest picked cnt h
      case isFalse hnot =>
        by_cases hks : groupKey s = k
        · have hc : countGroup k (picked ++ [s]) = countGroup k picked + 1 := by
            rw [countGroup_append_one, if_pos hks]
          have hcnt' : (if k = groupKey s then cnt (groupKey s) + 1 else cnt k)
              = countGroup k (picked ++ [s]) := by
            rw [if_pos hks.symm, hks, h, hc]
          have hrec := pickGo_count_le m K k rest (picked ++ [s])
            (fun kk => if kk = groupKey s then cnt (groupKey s) + 1 else cnt kk) hcnt'
          rw [hc] at hrec
          have hlt : countGroup k picked + 1 ≤ m := by
            rw [hks] at hnot
            omega
          rw [Nat.max_eq_left hlt] at hrec
          exact le_trans hrec (le_max_left _ _)
        · have hkne : ¬ k = groupKey s := fun he => hks he.symm
          have hc : countGroup k (picked ++ [s]) = countGroup k picked := by
            simp [countGroup_append_one, hks]
          have hcnt' : (if k = groupKey s then cnt (groupKey s) + 1 else cnt k)
              = countGroup k (picked ++ [s]) := by
            rw [if_neg hkne, h, hc]
          have hrec := pickGo_count_le m K k rest (picked ++ [s])
            (fun kk => if kk = groupKey s then cnt (groupKey s) + 1 else cnt kk) hcnt'
          rw [hc] at hrec
          exact hrec

theorem pickGo_count_exact (m K : Nat) (k : String) :
    ∀ (rest picked : List Song) (cnt : String → Nat),
      cnt k = countGroup k picked →
      cnt k ≤ m →
      m ≤ cnt k + countGroup k rest →
      picked.length + countNonGroup k rest + m ≤ cnt k + K →
      countGroup k (pickGo m K rest picked cnt) = m
  | [], picked, cnt, h, hub, hlb, _ => by
    simp only [pickGo]
    have h0 : countGroup k ([] : List Song) = 0 := rfl
    rw [h0] at hlb
    omega
  | s :: rest, picked, cnt, h, hub, hlb, hlen => by
    unfold pickGo
    split
    case isTrue hbreak =>
      rw [← h]
      omega
    case isFalse hbreak =>
      split
      case isTrue hfull =>
        by_cases hks : groupKey s = k
        · refine pickGo_count_exact m K k rest picked cnt h hub ?_ ?_
          · rw [hks] at hfull
            omega
          · rw [countNonGroup_cons, if_pos hks] at hlen
            omega
        · refine pickGo_count_exact m K k rest picked cnt h hub ?_ ?_
          · rw [countGroup_cons, if_neg hks] at hlb
            omega
          · rw [countNonGroup_cons, if_neg hks] at hlen
            omega
      case isFalse hfull =>
        by_cases hks : groupKey s = k
        · have hc : countGroup k (picked ++ [s]) = countGroup k picked + 1 := by
            rw [countGroup_append_one, if_pos hks]
          have hcnt' : (if k = groupKey s then cnt (groupKey s) + 1 else cnt k)
              = countGroup k (picked ++ [s]) := by
            rw [if_pos hks.symm, hks, h, hc]
          refine pickGo_count_exact m K k rest (picked ++ [s])
            (fun kk => if kk = groupKey s then cnt (groupKey s) + 1 else cnt kk)
            hcnt' ?_ ?_ ?_
          · simp only [hcnt', hc]
            rw [hks] at hfull
            omega
          · rw [countGroup_cons, if_pos hks] at hlb
            simp only [hcnt', hc]
            omega
          · rw [countNonGroup_cons, if_pos hks] at hlen
            simp only [hcnt', hc]
            simp only [List.length_append, List.length_cons, List.length_nil]
            omega
        · have hkne : ¬ k = groupKey s := fun he => hks he.symm
          have hc : countGroup k (picked ++ [s]) = countGroup k picked := by
            simp [countGroup_append_one, hks]
          have hcnt' : (if k = groupKey s then cnt (groupKey s) + 1 else cnt k)
              = countGroup k (picked ++ [s]) := by
            rw [if_neg hkne, h, hc]
          refine pickGo_count_exact m K k rest (picked ++ [s])
            (fun kk => if kk = groupKey s then cnt (groupKey s) + 1 else cnt kk)
            hcnt' ?_ ?_ ?_
          · simp only [hcnt', hc]
            omega
          · rw [countGroup_cons, if_neg hks] at hlb
            simp only [hcnt', hc]
            omega
          · rw [countNonGroup_cons, if_neg hks] at hlen
            simp only [hcnt', hc]
            simp only [List.length_append, List.length_cons, List.length_nil]
            omega

/-! ### Claim theorems -/

/-- C1 (counterexample): for a user with no taste profile (hence 0
interactions), the recommendations handler returns the empty-but-successful
`{ songs: [] }` payload with status 200, not the structured insufficient-history
result — refuting the claim that every 0-interaction user gets the structured
result. -/
theorem C1_counterexample :
    getRecommendations none dEx = RecResponse.emptySongs
    ∧ getRecommendations none dEx ≠ RecResponse.insufficient 0 5 := by
  constructor
  · rfl
  · decide

/-- C1 (amended): a user with no profile, or a profile with empty genre and
sub-genre arrays, gets the empty-but-successful `{ songs: [] }` response; the
structured insufficient-history result (interaction count, minimum 5) is
returned exactly when a profile with at least one genre or sub-genre entry
exists and `totalInteractions < 5`. -/
theorem C1_corrected (store : Option TasteProfile) (now : CalDate) :
    (store = none → getRecommendations store now = .emptySongs)
    ∧ (∀ p, store = some p → p.genres = [] → p.subGenres = [] →
        getRecommendations store now = .emptySongs)
    ∧ (∀ p, store = some p → ¬(p.genres = [] ∧ p.subGenres = []) →
        p.totalInteractions < 5 →
        getRecommendations store now = .insufficient p.totalInteractions 5) := by
  refine ⟨?_, ?_, ?_⟩
  · rintro rfl
    rfl
  · rintro p rfl hg hs
    simp [getRecommendations, hg, hs]
  · rintro p rfl hne hlt
    have hlen : ¬(p.genres.length = 0 ∧ p.subGenres.length = 0) := by
      simpa [List.length_eq_zero] using hne
    simp [getRecommendations, hlen, hlt]
    exact fun h1 h2 => hne ⟨h1, h2⟩

/-- C1 (witness): `pLow` has one genre entry and 3 interactions, and the
handler returns the structured insufficient-history payload for it. -/
theorem C1_witness :
    pLow.totalInteractions < 5
    ∧ getRecommendations (some pLow) dEx
        = RecResponse.insufficient pLow.totalInteractions 5 :=
  ⟨by decide, (C1_corrected (some pLow) dEx).2.2 pLow rfl (by decide) (by decide)⟩

/-- C2 (code evaluation): on the brief "calm ambient music for meditation,
no vocals" with no caller vocals flag, the heuristic extractor returns
`vocals = "on"` — not `"off"` as the claim requires — because the later
`/with vocals|singer|vocal/i` test also matches the substring `vocal` inside
`no vocals` and overwrites the `off` assignment; the tempo half of the claim
does hold: the band is target 75 BPM in [60, 90].  This holds for every
taxonomy cache state. -/
theorem C2_theorem (tax : Taxonomy) :
    (deriveHeuristicSpec tax cText none).vocals = some "on"
    ∧ (deriveHeuristicSpec tax cText none).vocals ≠ some "off"
    ∧ (deriveHeuristicSpec tax cText none).tempo
        = some { targetBpm := 75, min := 60, max := 90, expandSteps := [5, 10, 20] } := by
  rw [heuristicSpec_vocals, heuristicSpec_tempo]
  refine ⟨?_, ?_, ?_⟩ <;> decide

/-- C3 (counterexample): with two stored profiles where persisting the first
fails, the sweep returns `{ success: false, error }` with no count and the
second profile is never decayed or persisted — refuting the claim that a
failure on one profile is skipped and the sweep always reports a count. -/
theorem C3_counterexample :
    runMonthlyDecay [pCent, qTwo] failsOnW dEx = (.failed "save failed", []) := by
  decide

/-- C3 (amended): the whole sweep loop runs inside one try/catch, so a
persistence failure on one profile aborts the sweep: profiles saved before the
failure stay saved, the failing profile and all later ones are not persisted,
and the result is `{ success: false, error }` with no count; only a pass with
no failures returns `{ success: true, updatedCount = number of profiles }`. -/
theorem C3_corrected (profiles : List TasteProfile) (fails : TasteProfile → Bool)
    (now : CalDate) :
    ((∀ p ∈ profiles, fails (p.applyDecay now) = false) →
      runMonthlyDecay profiles fails now
        = (.ok profiles.length, profiles.map (fun p => p.applyDecay now)))
    ∧ (∀ ps q qs, profiles = ps ++ q :: qs →
        (∀ p ∈ ps, fails (p.applyDecay now) = false) →
        fails (q.applyDecay now) = true →
        runMonthlyDecay profiles fails now
          = (.failed "save failed", ps.map (fun p => p.applyDecay now))) := by
  constructor
  · intro h
    have hs := sweepGo_success fails now profiles 0 [] h
    simpa [runMonthlyDecay] using hs
  · rintro ps q qs rfl hps hq
    have hs := sweepGo_abort fails now q qs hq ps 0 [] hps
    simpa [runMonthlyDecay] using hs

/-- C3 (witness): with profiles `[qTwo, pCent]` and a persistence layer that
rejects the decayed `pCent`, the sweep aborts after saving only `qTwo`. -/
theorem C3_witness :
    failsOnW (pCent.applyDecay dEx) = true
    ∧ runMonthlyDecay [qTwo, pCent] failsOnW dEx
        = (.failed "save failed", [qTwo.applyDecay dEx]) :=
  ⟨by decide,
    (C3_corrected [qTwo, pCent] failsOnW dEx).2 [qTwo] pCent [] rfl
      (by decide) (by decide)⟩

/-- C4 (confirmed): every score-mutating operation preserves the invariant
that all stored genre and sub-genre scores are at least 1: the genre update,
the sub-genre update (for any signed weight), decay, and the whole
`/taste-interaction` handler (profile found or freshly created, any
interaction kind, including the negative-weight kinds skip and unfavorite). -/
theorem C4_theorem (p : TasteProfile) (gid gname sid sname pid : String)
    (points : ℚ) (now : CalDate) (h : p.scoresOK) :
    (p.updateGenreScore gid gname points now).scoresOK
    ∧ (p.updateSubGenreScore sid sname pid points now).scoresOK
    ∧ (p.applyDecay now).scoresOK
    ∧ (∀ (uid : String) (req : InteractionRequest) (n : CalDate) (p' : TasteProfile),
        (processTasteInteraction (some p) uid req n).1 = some p' → p'.scoresOK)
    ∧ (∀ (uid : String) (req : InteractionRequest) (n : CalDate) (p' : TasteProfile),
        (processTasteInteraction none uid req n).1 = some p' → p'.scoresOK) := by
  refine ⟨updateGenreScore_scoresOK p gid gname points now h,
    updateSubGenreScore_scoresOK p sid sname pid points now h,
    applyDecay_scoresOK p now h, ?_, ?_⟩
  · intro uid req n p' hp'
    exact processTasteInteraction_scoresOK (some p) uid req n
      (fun q hq => by cases hq; exact h) p' hp'
  · intro uid req n p' hp'
    exact processTasteInteraction_scoresOK none uid req n
      (fun q hq => by cases hq) p' hp'

/-- C4 (witness): `pEx` satisfies the invariant, and applying the unfavorite
genre weight (−5/2) keeps it. -/
theorem C4_witness :
    pEx.scoresOK ∧ (pEx.updateGenreScore "A" "Alpha" (-5/2) dEx).scoresOK := by
  have h : pEx.scoresOK := ⟨by decide, by decide⟩
  exact ⟨h, (C4_theorem pEx "A" "Alpha" "s1" "SubOne" "A" (-5/2) dEx h).1⟩

/-- C5 (counterexample): the kind "toString" is not one of
{play, like, favorite, skip, repeat, download, unfavorite}, yet the handler
does not reject it: the JS lookup `scoreWeights["toString"]` resolves the
inherited, truthy `Object.prototype.toString`, so the 400 guard is skipped
and the handler mutates — `totalInteractions` is bumped, the profile is
persisted, and a 200 success payload is returned. -/
theorem C5_counterexample :
    reqProto.interactionType ∉
      (["play", "like", "favorite", "skip", "repeat", "download",
        "unfavorite"] : List String)
    ∧ (processTasteInteraction (some pEx) "u" reqProto dEx).1 ≠ some pEx
    ∧ (processTasteInteraction (some pEx) "u" reqProto dEx).2
        = InteractionResponse.ok 7 :=
  ⟨by decide, by decide, by decide⟩

/-- C5 (amended): the handler rejects with a 400 before any mutation exactly
the kinds whose lookup is `undefined` — those outside the weight table AND
outside the `Object.prototype` property names; for a kind that names an
inherited `Object.prototype` member (toString, constructor, valueOf,
`__proto__`, ...) the lookup is truthy, the validation is skipped, and the
handler (shown here for requests carrying no genre/sub-genre tags) applies
decay, increments `totalInteractions`, persists, and returns a 200 success. -/
theorem C5_corrected (store : Option TasteProfile) (uid : String)
    (req : InteractionRequest) (now : CalDate) :
    (req.interactionType ∉
        (["play", "like", "favorite", "skip", "repeat", "download",
          "unfavorite"] : List String) →
      req.interactionType ∉ objectProtoProps →
      (processTasteInteraction store uid req now).1 = store
      ∧ ((processTasteInteraction store uid req now).2
            = .badRequest "songId and interactionType are required"
         ∨ (processTasteInteraction store uid req now).2
            = .badRequest "Invalid interaction type"))
    ∧ (req.interactionType ∈ objectProtoProps →
        falsyStr req.songId = false →
        req.genres.getD [] = [] →
        req.subGenres.getD [] = [] →
        processTasteInteraction store uid req now
          = (some { (store.getD (newTasteProfile uid now)).applyDecay now with
                totalInteractions :=
                  ((store.getD (newTasteProfile uid now)).applyDecay now).totalInteractions + 1 },
             .ok (((store.getD (newTasteProfile uid now)).applyDecay now).totalInteractions + 1))) := by
  constructor
  · intro h1 h2
    have hw : scoreWeights req.interactionType = WeightsVal.absent :=
      scoreWeights_absent _ h1 h2
    unfold processTasteInteraction
    by_cases hg : (falsyStr req.songId || req.interactionType = "") = true
    · rw [if_pos hg]
      exact ⟨rfl, Or.inl rfl⟩
    · rw [if_neg hg, hw]
      exact ⟨rfl, Or.inr rfl⟩
  · intro hmem hfalsy _ _
    obtain ⟨hw, hne⟩ := scoreWeights_of_proto _ hmem
    unfold processTasteInteraction
    rw [if_neg (by simp [hfalsy, hne]), hw]

/-- C5 (witness): the kind "share" is fully unknown and leaves the store
untouched with a 400, while the kind "toString" slips through the guard and
the handler bumps the counter of `pEx` from 6 to 7 and persists. -/
theorem C5_witness :
    reqBad.interactionType ∉
      (["play", "like", "favorite", "skip", "repeat", "download",
        "unfavorite"] : List String)
    ∧ reqBad.interactionType ∉ objectProtoProps
    ∧ (processTasteInteraction (some pEx) "u" reqBad dEx).1 = some pEx
    ∧ reqProto.interactionType ∈ objectProtoProps
    ∧ processTasteInteraction (some pEx) "u" reqProto dEx
        = (some { ((some pEx : Option TasteProfile).getD (newTasteProfile "u" dEx)).applyDecay dEx with
              totalInteractions :=
                (((some pEx : Option TasteProfile).getD (newTasteProfile "u" dEx)).applyDecay dEx).totalInteractions + 1 },
           .ok ((((some pEx : Option TasteProfile).getD (newTasteProfile "u" dEx)).applyDecay dEx).totalInteractions + 1)) := by
  have h1 : reqBad.interactionType ∉
      (["play", "like", "favorite", "skip", "repeat", "download",
        "unfavorite"] : List String) := by decide
  have h2 : reqBad.interactionType ∉ objectProtoProps := by decide
  have h3 : reqProto.interactionType ∈ objectProtoProps := by decide
  exact ⟨h1, h2, ((C5_corrected (some pEx) "u" reqBad dEx).1 h1 h2).1, h3,
    (C5_corrected (some pEx) "u" reqProto dEx).2 h3 (by decide) (by decide) (by decide)⟩

/-- C6 (confirmed): decay counts whole calendar months from year/month
components (January 31 to February 1 counts as one month although one day
elapsed; February 1 to February 28 counts as zero); when at least one month
elapsed every score `s` becomes `max(1, floor(s * 0.95))` exactly once and
`lastDecayDate` is set; when less than one month elapsed the profile is
unchanged; 100 decays to 95, a second application in a later month gives
`floor(95 * 0.95) = 90` (sequential floor-after-multiply), as the concrete
two-month run of `pCent` shows. -/
theorem C6_theorem (p : TasteProfile) (now : CalDate) :
    (monthsBetween p.lastDecayDate now < 1 → p.applyDecay now = p)
    ∧ (1 ≤ monthsBetween p.lastDecayDate now →
        (p.applyDecay now).genres
            = p.genres.map (fun g => { g with score := decayScore g.score })
        ∧ (p.applyDecay now).subGenres
            = p.subGenres.map (fun sg => { sg with score := decayScore sg.score })
        ∧ (p.applyDecay now).lastDecayDate = now)
    ∧ decayScore 100 = 95
    ∧ decayScore 95 = 90
    ∧ (pCent.applyDecay ⟨2025, 1, 1⟩).genres = [⟨"g1", "Rock", 95⟩]
    ∧ ((pCent.applyDecay ⟨2025, 1, 1⟩).applyDecay ⟨2025, 2, 1⟩).genres
        = [⟨"g1", "Rock", 90⟩]
    ∧ monthsBetween ⟨2025, 0, 31⟩ ⟨2025, 1, 1⟩ = 1
    ∧ monthsBetween ⟨2025, 1, 1⟩ ⟨2025, 1, 28⟩ = 0 := by
  have h95 : decayScore 100 = 95 := by norm_num [decayScore, decayFactor, jsMax]
  have h90 : decayScore 95 = 90 := by norm_num [decayScore, decayFactor, jsMax]
  refine ⟨?_, ?_, h95, h90, ?_, ?_, by decide, by decide⟩
  · intro h
    unfold TasteProfile.applyDecay
    rw [if_neg (by omega)]
  · intro h
    unfold TasteProfile.applyDecay
    rw [if_pos h]
    exact ⟨rfl, rfl, rfl⟩
  · simp [TasteProfile.applyDecay, pCent, monthsBetween, h95]
  · simp [TasteProfile.applyDecay, pCent, monthsBetween, h95, h90]

/-- C6 (witness): within January 2025 the decay of `pCent` is a no-op;
crossing into February it fires and stamps the new date. -/
theorem C6_witness :
    monthsBetween pCent.lastDecayDate ⟨2025, 0, 20⟩ < 1
    ∧ pCent.applyDecay ⟨2025, 0, 20⟩ = pCent
    ∧ 1 ≤ monthsBetween pCent.lastDecayDate ⟨2025, 1, 1⟩
    ∧ (pCent.applyDecay ⟨2025, 1, 1⟩).lastDecayDate = ⟨2025, 1, 1⟩ :=
  ⟨by decide, (C6_theorem pCent ⟨2025, 0, 20⟩).1 (by decide), by decide,
    ((C6_theorem pCent ⟨2025, 1, 1⟩).2.1 (by decide)).2.2⟩

/-- C7 (confirmed): decay is idempotent within a calendar month — if the
second call happens in the same year and month as the first, it changes
nothing at all (scores and last-decay timestamp included). -/
theorem C7_theorem (p : TasteProfile) (n1 n2 : CalDate)
    (hy : n2.year = n1.year) (hm : n2.month = n1.month) :
    (p.applyDecay n1).applyDecay n2 = p.applyDecay n1 := by
  unfold TasteProfile.applyDecay
  by_cases h1 : 1 ≤ monthsBetween p.lastDecayDate n1
  · simp only [h1, if_true]
    have h2 : monthsBetween n1 n2 = 0 := by
      simp [monthsBetween, hy, hm]
    simp [h2]
  · simp only [h1, if_false]
    have h2 : monthsBetween p.lastDecayDate n2 = monthsBetween p.lastDecayDate n1 := by
      simp [monthsBetween, hy, hm]
    simp [h2, h1]

/-- C7 (witness): a second decay of `pCent` later in February 2025 leaves the
February-decayed profile unchanged. -/
theorem C7_witness :
    (⟨2025, 1, 28⟩ : CalDate).year = (⟨2025, 1, 3⟩ : CalDate).year
    ∧ (pCent.applyDecay ⟨2025, 1, 3⟩).applyDecay ⟨2025, 1, 28⟩
        = pCent.applyDecay ⟨2025, 1, 3⟩ :=
  ⟨rfl, C7_theorem pCent ⟨2025, 1, 3⟩ ⟨2025, 1, 28⟩ rfl rfl⟩

/-- C8 (confirmed): `getTopGenres` / `getTopSubGenres` return at most `limit`
entries, sorted descending by score, and the tie order is deterministic:
for every score value, the returned entries with that score are an initial
segment of the stored entries with that score in stored (insertion) order —
first-inserted wins on a tie. -/
theorem C8_theorem (p : TasteProfile) (limit : Nat) :
    ((p.getTopGenres limit).2.length ≤ limit
      ∧ (p.getTopGenres limit).2.Pairwise (fun a b => b.score ≤ a.score)
      ∧ ∀ s : ℚ, (p.getTopGenres limit).2.filter (fun g => g.score = s)
          <+: p.genres.filter (fun g => g.score = s))
    ∧ ((p.getTopSubGenres limit).2.length ≤ limit
      ∧ (p.getTopSubGenres limit).2.Pairwise (fun a b => b.score ≤ a.score)
      ∧ ∀ s : ℚ, (p.getTopSubGenres limit).2.filter (fun sg => sg.score = s)
          <+: p.subGenres.filter (fun sg => sg.score = s)) := by
  refine ⟨⟨?_, ?_, ?_⟩, ⟨?_, ?_, ?_⟩⟩
  · exact List.length_take_le limit _
  · exact (sortScoreDesc_pairwise _ _).sublist (List.take_sublist _ _)
  · intro s
    have h := take_filter_isPre (fun g : GenreEntry => decide (g.score = s)) limit
      (sortScoreDesc (fun g => g.score) p.genres)
    rw [sortScoreDesc_filter] at h
    exact h
  · exact List.length_take_le limit _
  · exact (sortScoreDesc_pairwise _ _).sublist (List.take_sublist _ _)
  · intro s
    have h := take_filter_isPre (fun sg : SubGenreEntry => decide (sg.score = s)) limit
      (sortScoreDesc (fun sg => sg.score) p.subGenres)
    rw [sortScoreDesc_filter] at h
    exact h

/-- C9 (counterexample): `cexPool` contains 10 candidates sharing sub-genre
`S` and 12 candidates of other groups (at least 6), yet with
`maxPerGroup = 4, topK = 10` the selection contains 0 candidates of group
`S`, not exactly 4 — the 12 higher-ranked alternates fill all ten slots. -/
theorem C9_counterexample :
    countGroup "S" cexPool = 10
    ∧ countNonGroup "S" cexPool = 12
    ∧ countGroup "S" (pickTopWithDiversity cexPool 4 10) = 0 :=
  ⟨by decide, by decide, by decide⟩

/-- C9 (amended): the greedy diversity selection never picks more than
`maxPerGroup` candidates of any group; and it picks exactly `maxPerGroup`
from a group when the pool holds at least `maxPerGroup` candidates of that
group and at most `topK − maxPerGroup` candidates of other groups (so in the
spec scenario the bound is "exactly 4" only when the alternate-group
candidates number at most 6, not at least 6). -/
theorem C9_corrected (sorted : List Song) (m K : Nat) (k : String) :
    countGroup k (pickTopWithDiversity sorted m K) ≤ m
    ∧ (m ≤ countGroup k sorted → countNonGroup k sorted + m ≤ K →
        countGroup k (pickTopWithDiversity sorted m K) = m) := by
  constructor
  · have h := pickGo_count_le m K k sorted [] (fun _ => 0) (by simp [countGroup])
    simpa [pickTopWithDiversity, countGroup] using h
  · intro h1 h2
    refine pickGo_count_exact m K k sorted [] (fun _ => 0) (by simp [countGroup])
      (Nat.zero_le m) (by simpa using h1) ?_
    simpa using h2

/-- C9 (witness): `okPool` has 10 candidates of group `S` and 6 alternates;
the selection takes exactly 4 from `S`. -/
theorem C9_witness :
    4 ≤ countGroup "S" okPool
    ∧ countNonGroup "S" okPool + 4 ≤ 10
    ∧ countGroup "S" (pickTopWithDiversity okPool 4 10) = 4 := by
  have h1 : 4 ≤ countGroup "S" okPool := by decide
  have h2 : countNonGroup "S" okPool + 4 ≤ 10 := by decide
  exact ⟨h1, h2, (C9_corrected okPool 4 10 "S").2 h1 h2⟩

/-- C10 (confirmed): `getTopGenres` / `getTopSubGenres` are not read-only:
after a call, the stored array is the descending-sorted permutation of the old
entries (each entry's fields intact, the other profile fields untouched).  On
the concrete `pEx` (insertion order `[eA, eB]`), the first call reorders the
stored array to `[eB, eA]`; after raising `eA`'s score to tie with `eB`, the
next call returns `eB` first although `eA` was first-inserted — the original
insertion order is lost for subsequent operations. -/
theorem C10_theorem (p : TasteProfile) (limit : Nat) :
    ((p.getTopGenres limit).1.genres.Perm p.genres
      ∧ (p.getTopGenres limit).1.genres.Pairwise (fun a b => b.score ≤ a.score)
      ∧ (p.getTopGenres limit).1.subGenres = p.subGenres
      ∧ (p.getTopGenres limit).1.totalInteractions = p.totalInteractions
      ∧ (p.getTopGenres limit).1.userId = p.userId)
    ∧ ((p.getTopSubGenres limit).1.subGenres.Perm p.subGenres
      ∧ (p.getTopSubGenres limit).1.subGenres.Pairwise (fun a b => b.score ≤ a.score)
      ∧ (p.getTopSubGenres limit).1.genres = p.genres)
    ∧ ((pEx.getTopGenres 5).1.genres = [eB, eA] ∧ pEx.genres = [eA, eB])
    ∧ (((pEx.getTopGenres 5).1.updateGenreScore "A" "Alpha" 2 dEx).getTopGenres 5).2
        = [eB, ⟨"A", "Alpha", 5⟩] := by
  refine ⟨⟨sortScoreDesc_perm _ _, sortScoreDesc_pairwise _ _, rfl, rfl, rfl⟩,
    ⟨sortScoreDesc_perm _ _, sortScoreDesc_pairwise _ _, rfl⟩,
    ⟨by decide, rfl⟩, ?_⟩
  simp [TasteProfile.getTopGenres, TasteProfile.updateGenreScore, pEx, eA, eB,
    sortScoreDesc, insertScoreDesc, updateFirstGenre, jsMax]
  norm_num

end Vara
